import Mathlib

/-!
Verification development for the zPref preferences library
(`src/type_converter.cpp`, `src/zPrefBase.h`, `src/zPref.h`, `src/zPref.cpp`).

The C++ code is shallowly embedded as follows.

* A `zPrefVariable<T>` (zPrefBase.h:135-190) becomes a Lean structure over a
  value type `T` and an abstract backend-state type `B`.  The getter and
  setter closures stored in the C++ object become function-valued fields:
  the getter reads the backend state (`String → T → B → T`, matching the
  C++ `std::function<T(String, T)>` closed over the NVS handle) and the
  setter may update it (`String → T → B → Nat × B`, matching
  `std::function<size_t(String, T)>`).  Member functions that mutate the
  object are embedded in state-passing style: they return the updated
  variable together with their C++ return value.  `Get` additionally
  returns the number of getter invocations (backend reads) it performed,
  so that laziness is expressible.
* The registry scan loops of `zPrefBase` (zPrefBase.h:110-125) become
  structural recursions over a `List` of variables (insertion order =
  declaration order, `AddVariable` is `push_back`).
* `zPref<TDerived>::Init` (zPref.h:93-144) becomes a function over an
  explicit NVS backend state; the CRTP `OnInit` hook is a function
  parameter.  It returns the C++ return value, the final `status` field,
  the final backend state, and a trace of the observable events
  (hook calls, version-key writes, commits) so that "exactly once" /
  "no write" claims are expressible.
* Arduino `String::toCharArray` (used by `GetString(char*, size_t)`,
  zPrefBase.h:182-189) is embedded from its documented semantics:
  with buffer size 0 it writes nothing, otherwise it copies
  `min(length, bufsize-1)` characters followed by a NUL terminator.
-/

/-! ## Type codec (type_converter.cpp) -/

/-- Embedding of the `bool` specialization of `getValue_as`
(type_converter.cpp:68-71):
`String(val).equals("true") || String(val).equals("1") || String(val).equals("True")`. -/
def getValue_as_bool (val : String) : Bool :=
  val == "true" || val == "1" || val == "True"

/-! ## Variable (zPrefBase.h:135-190) -/

/-- Embedding of `zPrefVariable<T>` (zPrefBase.h:135-190), parameterized by
the backend-state type `B` that the getter/setter closures act on.
`current` is the `_current` member, `defaultVal` is `_default`,
`initialized` is the `initialized` flag (false at construction). -/
structure zPrefVariable (T B : Type) where
  key : String
  defaultVal : T
  getter : String → T → B → T
  setter : String → T → B → Nat × B
  current : T
  initialized : Bool

/-- The `zPrefVariable` constructor (zPrefBase.h:150-161): stores key,
default and the two closures, leaves `initialized = false` and performs no
backend access (its type does not even take a backend state).  `junk`
stands for the indeterminate default-constructed value of `_current`. -/
def zPrefVariable.make (key : String) (defaultVal : T)
    (g : String → T → B → T) (s : String → T → B → Nat × B) (junk : T) :
    zPrefVariable T B :=
  { key := key, defaultVal := defaultVal, getter := g, setter := s,
    current := junk, initialized := false }

/-- Embedding of `zPrefVariable::Get` (zPrefBase.h:164-167), with the
private helper `initialize` (zPrefBase.h:144-147) inlined:
`if (!initialized) initialize(); return _current;` where `initialize`
does `_current = _getter(_key, _default); initialized = true;`.
Returns the value, the updated variable, and the number of getter
invocations (backend reads) performed by this call. -/
def zPrefVariable.Get (b : B) (v : zPrefVariable T B) :
    T × zPrefVariable T B × Nat :=
  if v.initialized then
    (v.current, v, 0)
  else
    let v2 := { v with current := v.getter v.key v.defaultVal b,
                       initialized := true }
    (v2.current, v2, 1)

/-- Embedding of `zPrefVariable::Set` (zPrefBase.h:168-172):
calls the setter, then unconditionally updates `_current` (the
`initialized` flag is NOT touched).  Returns the setter's return value,
the new backend state and the updated variable. -/
def zPrefVariable.Set (b : B) (v : zPrefVariable T B) (val : T) :
    Nat × B × zPrefVariable T B :=
  let r := v.setter v.key val b
  (r.1, r.2, { v with current := val })

/-- Embedding of `zPrefVariable::SetDefault` (zPrefBase.h:173-175):
`return this->_setter(_key, _default);` — it only calls the setter; no
member of the object is assigned, so the variable is returned unchanged. -/
def zPrefVariable.SetDefault (b : B) (v : zPrefVariable T B) :
    Nat × B × zPrefVariable T B :=
  let r := v.setter v.key v.defaultVal b
  (r.1, r.2, v)

/-- Embedding of `zPrefVariable::FromString` (zPrefBase.h:176-178):
`return this->Set(getValue_as<T>(val));` with the codec passed as the
`parse` parameter. -/
def zPrefVariable.FromString (parse : String → T) (b : B)
    (v : zPrefVariable T B) (val : String) : Nat × B × zPrefVariable T B :=
  zPrefVariable.Set b v (parse val)

/-- Arduino `String::toCharArray(buf, bufsize)` as used at zPrefBase.h:187,
embedded from the Arduino `String::getBytes` semantics: with `bufsize = 0`
nothing is written; otherwise `n = min(length, bufsize - 1)` characters
are copied and a NUL terminator is written at position `n`, so exactly
`n + 1 ≤ bufsize` bytes are touched.  The buffer is a `List Char` of
arbitrary length; positions past the written region keep their bytes. -/
def toCharArray (s : List Char) (buf : List Char) (bufsize : Nat) :
    List Char :=
  if bufsize = 0 then buf
  else
    let n := min s.length (bufsize - 1)
    s.take n ++ Char.ofNat 0 :: buf.drop (n + 1)

/-- Embedding of `zPrefVariable::GetString(char* buf, size_t len)`
(zPrefBase.h:182-189): renders `Get()` as text (the Arduino
`String(T)` conversion is the `render` parameter), returns false and
leaves the buffer alone when `val.length() > len`, otherwise calls
`val.toCharArray(buf, len)` and returns true. -/
def zPrefVariable.GetStringBuf (render : T → List Char) (b : B)
    (v : zPrefVariable T B) (buf : List Char) (len : Nat) :
    Bool × List Char × zPrefVariable T B :=
  let g := zPrefVariable.Get b v
  let val := render g.1
  if val.length > len then
    (false, buf, g.2.1)
  else
    (true, toCharArray val buf len, g.2.1)

/-! ## Registry (zPrefBase.h:64-133) -/

/-- Embedding of `zPrefBase::Set(const char* key, const char* val)`
(zPrefBase.h:118-125): linear scan over `_variables` in insertion order;
on the first variable whose `_key` equals `key`, return that variable's
`FromString(val)`; if no variable matches, return 0.  State-passing:
also returns the updated backend and the updated variable list. -/
def zPrefBase_Set (parse : String → T)
    (vars : List (zPrefVariable T B)) (k val : String) (b : B) :
    Nat × B × List (zPrefVariable T B) :=
  match vars with
  | [] => (0, b, [])
  | v :: rest =>
    if k = v.key then
      let r := zPrefVariable.FromString parse b v val
      (r.1, r.2.1, r.2.2 :: rest)
    else
      let r := zPrefBase_Set parse rest k val b
      (r.1, r.2.1, v :: r.2.2)

/-- Embedding of `zPrefBase::GetString(const char* key, char* buf, size_t len)`
(zPrefBase.h:110-117): linear scan in insertion order; on the first key
match delegate to that variable's `GetString(buf, len)`; return false
(buffer untouched) when no variable matches. -/
def zPrefBase_GetString (render : T → List Char)
    (vars : List (zPrefVariable T B)) (k : String) (b : B)
    (buf : List Char) (len : Nat) :
    Bool × List Char × List (zPrefVariable T B) :=
  match vars with
  | [] => (false, buf, [])
  | v :: rest =>
    if k = v.key then
      let r := zPrefVariable.GetStringBuf render b v buf len
      (r.1, r.2.1, r.2.2 :: rest)
    else
      let r := zPrefBase_GetString render rest k b buf len
      (r.1, r.2.1, v :: r.2.2)

/-! ## Versioned store controller (zPref.h, zPref.cpp) -/

/-- The ESP error outcomes distinguished by `zPref::Init`
(zPref.h:100-105): success, the two "needs erase" codes
`ESP_ERR_NVS_NO_FREE_PAGES` / `ESP_ERR_NVS_NEW_VERSION_FOUND`, and any
other error. -/
inductive EspErr where
  | espOk
  | espNoFreePages
  | espNewVersionFound
  | espOtherErr
deriving DecidableEq

/-- The `eStatus` values used by `zPref` (from globals.h, as used in
zPref.h:68, 94-95, 142). -/
inductive eStatus where
  | eOK
  | eFAILED
  | eINPROGRESS
  | eNOTINITIALIZED
deriving DecidableEq

/-- Backend state for the `uint32_t` NVS operations used by `Init`:
the result of the first `nvs_flash_init_partition` call, the result of
the retry after an erase, whether `nvs_open_from_partition` succeeds,
whether `nvs_set_u32` succeeds, and the persisted u32 key-value store. -/
structure U32Backend where
  flashInitFirst : EspErr
  flashInitAfterErase : EspErr
  openOk : Bool
  writeOk : Bool
  store : String → Option Nat

/-- `CONFIG_VERSION_KEY` (zPref.h:40). -/
def CONFIG_VERSION_KEY : String := "CfgVersion"

/-- Embedding of `zPrefBase::nvs_getULong` (zPref.cpp:112-116): returns
the stored value when the read succeeds, the caller's default otherwise
(a missing key models `nvs_get_u32` failure). -/
def nvs_getULong (b : U32Backend) (key : String) (default_value : Nat) :
    Nat :=
  (b.store key).getD default_value

/-- Embedding of `zPrefBase::nvs_putULong` (zPref.cpp:195-198): on success
stores the value and returns 1, on failure returns 0 leaving the store
unchanged. -/
def nvs_putULong (b : U32Backend) (key : String) (value : Nat) :
    Nat × U32Backend :=
  if b.writeOk then
    (1, { b with store := fun k => if k = key then some value else b.store k })
  else
    (0, b)

/-- `nvs_flash_erase_partition` wipes every key of the partition. -/
def eraseStore (b : U32Backend) : U32Backend :=
  { b with store := fun _ => none }

/-- Observable events of `zPref::Init`: a call of the `OnInit` hook with
its two arguments, a write of the version key, and an NVS commit. -/
inductive InitEvent where
  | onInitCall (stored current : Nat)
  | putVersion (v : Nat)
  | commitEv
deriving DecidableEq

/-- Embedding of `zPref<TDerived>::Init` (zPref.h:93-144).  The CRTP hook
`OnInit` is the function parameter `onInit`.  Returns
(return value, final `status` field, final backend, event trace):

1. `nvs_flash_init_partition`; on `ESP_ERR_NVS_NO_FREE_PAGES` or
   `ESP_ERR_NVS_NEW_VERSION_FOUND` erase the partition and retry once.
2. A remaining init error, or a failed `nvs_open_from_partition`,
   yields `eFAILED` (both return value and status).
3. Otherwise read the stored version (default 0); on mismatch call
   `OnInit(stored, current)`; if it returns `eOK`, put the version key and
   commit; if not, write nothing.  On version match call `OnInit` and
   write nothing.  Finally `status = (retVal == eOK) ? eOK : eFAILED`. -/
def zPref_Init (b : U32Backend) (currentVersion : Nat)
    (onInit : Nat → Nat → eStatus) :
    eStatus × eStatus × U32Backend × List InitEvent :=
  let fr : EspErr × U32Backend :=
    match b.flashInitFirst with
    | EspErr.espNoFreePages => (b.flashInitAfterErase, eraseStore b)
    | EspErr.espNewVersionFound => (b.flashInitAfterErase, eraseStore b)
    | e => (e, b)
  let err := fr.1
  let b1 := fr.2
  if err ≠ EspErr.espOk then
    (eStatus.eFAILED, eStatus.eFAILED, b1, [])
  else if b1.openOk = false then
    (eStatus.eFAILED, eStatus.eFAILED, b1, [])
  else
    let storedVersion := nvs_getULong b1 CONFIG_VERSION_KEY 0
    if storedVersion ≠ currentVersion then
      let r := onInit storedVersion currentVersion
      if r = eStatus.eOK then
        let pb := nvs_putULong b1 CONFIG_VERSION_KEY currentVersion
        (eStatus.eOK, eStatus.eOK, pb.2,
          [InitEvent.onInitCall storedVersion currentVersion,
           InitEvent.putVersion currentVersion, InitEvent.commitEv])
      else
        (r, eStatus.eFAILED, b1,
          [InitEvent.onInitCall storedVersion currentVersion])
    else
      let r := onInit storedVersion currentVersion
      (r, if r = eStatus.eOK then eStatus.eOK else eStatus.eFAILED, b1,
        [InitEvent.onInitCall storedVersion currentVersion])

/-! ## String put (zPref.cpp:210-213) -/

/-- Backend state for `nvs_set_str`: whether writes succeed, and the
persisted string key-value store. -/
structure StrBackend where
  writeOk : Bool
  store : String → Option String

/-- Embedding of `zPrefBase::nvs_putString` (zPref.cpp:210-213):
`return (err == ESP_OK) ? value.length() : 0;` — on success the store is
updated and the string's length is returned, on failure 0 is returned and
the store is unchanged. -/
def nvs_putString (b : StrBackend) (key value : String) :
    Nat × StrBackend :=
  if b.writeOk then
    (value.length,
     { b with store := fun k => if k = key then some value else b.store k })
  else
    (0, b)

/-! ## Theorems -/

/-- C5: a freshly constructed `zPrefVariable` is uninitialized (the
constructor performs no backend access — `zPrefVariable.make` does not
even take a backend state); the first `Get` invokes the getter exactly
once (read count 1), caches its result and marks the variable
initialized; any subsequent `Get`, even against a different backend state
`b2`, returns the cached value with zero getter invocations. -/
theorem variable_lazy_init {T B : Type} (key : String) (d : T)
    (g : String → T → B → T) (s : String → T → B → Nat × B) (junk : T)
    (b b2 : B) :
    (zPrefVariable.make key d g s junk).initialized = false ∧
    zPrefVariable.Get b (zPrefVariable.make key d g s junk) =
      (g key d b,
       { zPrefVariable.make key d g s junk with
           current := g key d b, initialized := true }, 1) ∧
    zPrefVariable.Get b2
      { zPrefVariable.make key d g s junk with
          current := g key d b, initialized := true } =
      (g key d b,
       { zPrefVariable.make key d g s junk with
           current := g key d b, initialized := true }, 0) := by
  refine ⟨rfl, ?_, ?_⟩ <;> simp [zPrefVariable.Get, zPrefVariable.make]

/-- C1 counterexample: a `zPrefVariable<Nat>` with default 0 that has
never been read (`initialized = false`), whose setter fails (returns 0
without touching the backend) and whose getter returns the default.
`Set 5` reports failure and caches 5, but the following `Get` runs
`initialize()`, overwrites the cache with the getter's result 0, and
returns 0, not 5 — refuting the claim in the uninitialized case. -/
theorem set_get_roundtrip_counterexample :
    (zPrefVariable.Set ()
      (zPrefVariable.make "k" 0 (fun _ d _ => d) (fun _ _ _ => (0, ())) 7)
      5).1 = 0 ∧
    (zPrefVariable.Get ()
      (zPrefVariable.Set ()
        (zPrefVariable.make "k" 0 (fun _ d _ => d) (fun _ _ _ => (0, ())) 7)
        5).2.2).1 ≠ 5 := by
  refine ⟨rfl, ?_⟩
  decide

/-- C1 (amended): if the variable has already been initialized (read at
least once) before the `Set`, then `Set val` followed by `Get` returns
`val` for every setter — in particular even when the backend write fails —
and for every backend state at the `Get`. -/
theorem set_then_get_initialized {T B : Type} (v : zPrefVariable T B)
    (val : T) (b b2 : B) (hinit : v.initialized = true) :
    (zPrefVariable.Get b2 (zPrefVariable.Set b v val).2.2).1 = val := by
  simp [zPrefVariable.Get, zPrefVariable.Set, hinit]

/-- C1 witness: the amended round-trip theorem applied to a concrete
initialized variable whose setter fails. -/
theorem set_then_get_initialized_witness :
    ({ key := "k", defaultVal := 0, getter := fun _ d _ => d,
       setter := fun _ _ _ => (0, ()), current := 3, initialized := true :
       zPrefVariable Nat Unit }).initialized = true ∧
    (zPrefVariable.Get ()
      (zPrefVariable.Set ()
        { key := "k", defaultVal := 0, getter := fun _ d _ => d,
          setter := fun _ _ _ => (0, ()), current := 3, initialized := true }
        5).2.2).1 = 5 :=
  ⟨rfl, set_then_get_initialized _ 5 () () rfl⟩

/-- C2 counterexample: an initialized `zPrefVariable<Nat>` with cached
value 5 and default 0, whose setter succeeds (returns 1).  `SetDefault`
reports a successful backend write of the default, yet the subsequent
`Get` still returns the old cached value 5, not the default 0 — the
cache is not updated. -/
theorem setdefault_cache_counterexample :
    (zPrefVariable.SetDefault ()
      ({ key := "k", defaultVal := 0, getter := fun _ d _ => d,
         setter := fun _ _ _ => (1, ()), current := 5, initialized := true :
         zPrefVariable Nat Unit })).1 = 1 ∧
    ({ key := "k", defaultVal := 0, getter := fun _ d _ => d,
       setter := fun _ _ _ => (1, ()), current := 5, initialized := true :
       zPrefVariable Nat Unit }).defaultVal = 0 ∧
    (zPrefVariable.Get ()
      (zPrefVariable.SetDefault ()
        ({ key := "k", defaultVal := 0, getter := fun _ d _ => d,
           setter := fun _ _ _ => (1, ()), current := 5, initialized := true :
           zPrefVariable Nat Unit })).2.2).1 ≠ 0 := by
  refine ⟨rfl, rfl, ?_⟩
  decide

/-- C2 (amended): `SetDefault` passes the compiled-in default to the
setter closure (one backend write of the default) and returns the
setter's result, but leaves the variable — cached value and initialized
flag — unchanged; a subsequent `Get` on an initialized variable returns
the previously cached value, not necessarily the default. -/
theorem setdefault_writes_backend_only {T B : Type}
    (v : zPrefVariable T B) (b b2 : B) (hinit : v.initialized = true) :
    (zPrefVariable.SetDefault b v).1 = (v.setter v.key v.defaultVal b).1 ∧
    (zPrefVariable.SetDefault b v).2.1 = (v.setter v.key v.defaultVal b).2 ∧
    (zPrefVariable.SetDefault b v).2.2 = v ∧
    (zPrefVariable.Get b2 (zPrefVariable.SetDefault b v).2.2).1 =
      v.current := by
  refine ⟨rfl, rfl, rfl, ?_⟩
  simp [zPrefVariable.Get, zPrefVariable.SetDefault, hinit]

/-- C2 witness: the amended `SetDefault` theorem at a concrete
initialized variable. -/
theorem setdefault_writes_backend_only_witness :
    ({ key := "k", defaultVal := 0, getter := fun _ d _ => d,
       setter := fun _ _ _ => (1, ()), current := 5, initialized := true :
       zPrefVariable Nat Unit }).initialized = true ∧
    ((zPrefVariable.SetDefault ()
       ({ key := "k", defaultVal := 0, getter := fun _ d _ => d,
          setter := fun _ _ _ => (1, ()), current := 5, initialized := true :
          zPrefVariable Nat Unit })).2.2 =
       { key := "k", defaultVal := 0, getter := fun _ d _ => d,
         setter := fun _ _ _ => (1, ()), current := 5, initialized := true } ∧
     (zPrefVariable.Get ()
       (zPrefVariable.SetDefault ()
         ({ key := "k", defaultVal := 0, getter := fun _ d _ => d,
            setter := fun _ _ _ => (1, ()), current := 5,
            initialized := true : zPrefVariable Nat Unit })).2.2).1 = 5) :=
  ⟨rfl,
   (setdefault_writes_backend_only _ () () rfl).2.2.1,
   (setdefault_writes_backend_only _ () () rfl).2.2.2⟩

/-- C6: the boolean codec returns true exactly on the three literals
"true", "1" and "True"; in particular "TRUE", "yes" and the empty string
map to false.  The function is total, so no input raises an error. -/
theorem bool_codec_exact_literals (s : String) :
    (getValue_as_bool s = true ↔ (s = "true" ∨ s = "1" ∨ s = "True")) ∧
    getValue_as_bool "TRUE" = false ∧
    getValue_as_bool "yes" = false ∧
    getValue_as_bool "" = false := by
  refine ⟨?_, by decide, by decide, by decide⟩
  simp [getValue_as_bool, beq_iff_eq, or_assoc]

/-- C3: when flash init and namespace open succeed, the stored version
differs from the compiled-in one and the `OnInit` hook returns `eFAILED`,
`Init` returns `eFAILED`, the controller's status field becomes `eFAILED`,
and the backend is completely untouched — in particular the value
persisted under the reserved version key is exactly its pre-call value. -/
theorem init_migration_failure_keeps_version (b : U32Backend) (cur : Nat)
    (onInit : Nat → Nat → eStatus)
    (hflash : b.flashInitFirst = EspErr.espOk)
    (hopen : b.openOk = true)
    (hmis : nvs_getULong b CONFIG_VERSION_KEY 0 ≠ cur)
    (hfail : onInit (nvs_getULong b CONFIG_VERSION_KEY 0) cur =
      eStatus.eFAILED) :
    (zPref_Init b cur onInit).1 = eStatus.eFAILED ∧
    (zPref_Init b cur onInit).2.1 = eStatus.eFAILED ∧
    (zPref_Init b cur onInit).2.2.1 = b ∧
    (zPref_Init b cur onInit).2.2.1.store CONFIG_VERSION_KEY =
      b.store CONFIG_VERSION_KEY := by
  unfold zPref_Init
  rw [hflash]
  simp [hopen, hmis, hfail]

/-- C3 witness: a concrete backend with no stored version (reads as 0),
current version 1, and a hook that always fails. -/
theorem init_migration_failure_keeps_version_witness :
    (U32Backend.mk EspErr.espOk EspErr.espOk true true
        (fun _ => none)).flashInitFirst = EspErr.espOk ∧
    nvs_getULong
      (U32Backend.mk EspErr.espOk EspErr.espOk true true (fun _ => none))
      CONFIG_VERSION_KEY 0 ≠ 1 ∧
    (zPref_Init
      (U32Backend.mk EspErr.espOk EspErr.espOk true true (fun _ => none))
      1 (fun _ _ => eStatus.eFAILED)).2.1 = eStatus.eFAILED ∧
    (zPref_Init
      (U32Backend.mk EspErr.espOk EspErr.espOk true true (fun _ => none))
      1 (fun _ _ => eStatus.eFAILED)).2.2.1 =
      U32Backend.mk EspErr.espOk EspErr.espOk true true (fun _ => none) :=
  ⟨rfl, by decide,
   (init_migration_failure_keeps_version _ 1 _ rfl rfl (by decide)
      rfl).2.1,
   (init_migration_failure_keeps_version _ 1 _ rfl rfl (by decide)
      rfl).2.2.1⟩

/-- C4: when flash init and namespace open succeed and the stored version
equals the compiled-in one, `Init`'s event trace is exactly one `OnInit`
call (with equal arguments) — no version-key write and no commit — and
the backend is unchanged. -/
theorem init_version_match_hook_once_no_write (b : U32Backend) (cur : Nat)
    (onInit : Nat → Nat → eStatus)
    (hflash : b.flashInitFirst = EspErr.espOk)
    (hopen : b.openOk = true)
    (heq : nvs_getULong b CONFIG_VERSION_KEY 0 = cur) :
    (zPref_Init b cur onInit).2.2.2 = [InitEvent.onInitCall cur cur] ∧
    (zPref_Init b cur onInit).2.2.1 = b := by
  unfold zPref_Init
  rw [hflash]
  simp [hopen, heq]

/-- C4 witness: a concrete backend storing version 2 with current
version 2. -/
theorem init_version_match_hook_once_no_write_witness :
    (U32Backend.mk EspErr.espOk EspErr.espOk true true
        (fun _ => some 2)).openOk = true ∧
    nvs_getULong
      (U32Backend.mk EspErr.espOk EspErr.espOk true true (fun _ => some 2))
      CONFIG_VERSION_KEY 0 = 2 ∧
    (zPref_Init
      (U32Backend.mk EspErr.espOk EspErr.espOk true true (fun _ => some 2))
      2 (fun _ _ => eStatus.eOK)).2.2.2 = [InitEvent.onInitCall 2 2] :=
  ⟨rfl, by decide,
   (init_version_match_hook_once_no_write _ 2 _ rfl rfl (by decide)).1⟩

/-- C9: when the versions mismatch and `OnInit` succeeds, `Init` ignores
the return value of `nvs_putULong`: even when every backend write fails
(`writeOk = false`), `Init` returns `eOK`, the status becomes `eOK`, and
the store — including the version key — is unchanged, so the device is
Ready with the old version still persisted. -/
theorem init_ignores_version_write_failure (b : U32Backend) (cur : Nat)
    (onInit : Nat → Nat → eStatus)
    (hflash : b.flashInitFirst = EspErr.espOk)
    (hopen : b.openOk = true)
    (hmis : nvs_getULong b CONFIG_VERSION_KEY 0 ≠ cur)
    (hok : onInit (nvs_getULong b CONFIG_VERSION_KEY 0) cur = eStatus.eOK)
    (hw : b.writeOk = false) :
    (zPref_Init b cur onInit).1 = eStatus.eOK ∧
    (zPref_Init b cur onInit).2.1 = eStatus.eOK ∧
    (zPref_Init b cur onInit).2.2.1.store = b.store := by
  unfold zPref_Init
  rw [hflash]
  simp [hopen, hmis, hok, nvs_putULong, hw]

/-- C9 witness: stored version 1 (differs from current 2), a succeeding
hook, and a backend whose writes fail. -/
theorem init_ignores_version_write_failure_witness :
    (U32Backend.mk EspErr.espOk EspErr.espOk true false
        (fun _ => some 1)).writeOk = false ∧
    nvs_getULong
      (U32Backend.mk EspErr.espOk EspErr.espOk true false (fun _ => some 1))
      CONFIG_VERSION_KEY 0 ≠ 2 ∧
    (zPref_Init
      (U32Backend.mk EspErr.espOk EspErr.espOk true false (fun _ => some 1))
      2 (fun _ _ => eStatus.eOK)).1 = eStatus.eOK ∧
    (zPref_Init
      (U32Backend.mk EspErr.espOk EspErr.espOk true false (fun _ => some 1))
      2 (fun _ _ => eStatus.eOK)).2.1 = eStatus.eOK ∧
    (zPref_Init
      (U32Backend.mk EspErr.espOk EspErr.espOk true false (fun _ => some 1))
      2 (fun _ _ => eStatus.eOK)).2.2.1.store CONFIG_VERSION_KEY = some 1 :=
  ⟨rfl, by decide,
   (init_ignores_version_write_failure _ 2 _ rfl rfl (by decide) rfl
      rfl).1,
   (init_ignores_version_write_failure _ 2 _ rfl rfl (by decide) rfl
      rfl).2.1,
   by
     rw [congrFun
       ((init_ignores_version_write_failure
         (U32Backend.mk EspErr.espOk EspErr.espOk true false
           (fun _ => some 1))
         2 (fun _ _ => eStatus.eOK) rfl rfl (by decide) rfl rfl).2.2)
       CONFIG_VERSION_KEY]⟩

/-- C10: a successful `nvs_putString` of the empty string returns 0 (the
string's length) while really updating the store, and a failed
`nvs_putString` also returns 0 leaving the store unchanged — the two are
indistinguishable by return value.  For every value, the success return
is the value's length. -/
theorem putstring_empty_indistinguishable (b b2 : StrBackend)
    (key : String) (hw : b.writeOk = true) (hw2 : b2.writeOk = false) :
    (nvs_putString b key "").1 = 0 ∧
    (nvs_putString b key "").2.store key = some "" ∧
    (nvs_putString b2 key "").1 = 0 ∧
    (nvs_putString b2 key "").2 = b2 ∧
    (∀ v : String, (nvs_putString b key v).1 = v.length) := by
  simp [nvs_putString, hw, hw2]

/-- C10 witness: concrete succeeding and failing backends. -/
theorem putstring_empty_indistinguishable_witness :
    (StrBackend.mk true (fun _ => none)).writeOk = true ∧
    (StrBackend.mk false (fun _ => none)).writeOk = false ∧
    (nvs_putString (StrBackend.mk true (fun _ => none)) "k" "").1 = 0 ∧
    (nvs_putString (StrBackend.mk true (fun _ => none)) "k" "").2.store "k"
      = some "" ∧
    (nvs_putString (StrBackend.mk false (fun _ => none)) "k" "").1 = 0 :=
  ⟨rfl, rfl,
   (putstring_empty_indistinguishable (StrBackend.mk true (fun _ => none))
     (StrBackend.mk false (fun _ => none)) "k" rfl rfl).1,
   (putstring_empty_indistinguishable (StrBackend.mk true (fun _ => none))
     (StrBackend.mk false (fun _ => none)) "k" rfl rfl).2.1,
   (putstring_empty_indistinguishable (StrBackend.mk true (fun _ => none))
     (StrBackend.mk false (fun _ => none)) "k" rfl rfl).2.2.1⟩

/-- The scan of `zPrefBase::Set` leaves everything untouched and returns 0
when no registered variable's key matches. -/
theorem zPrefBase_Set_no_match {T B : Type} (parse : String → T)
    (k val : String) (b : B) (vars : List (zPrefVariable T B))
    (h : ∀ u ∈ vars, u.key ≠ k) :
    zPrefBase_Set parse vars k val b = (0, b, vars) := by
  revert h
  induction vars with
  | nil => intro _; rfl
  | cons u rest ih =>
    intro h
    have hu : ¬ (k = u.key) := fun hh => h u (by simp) hh.symm
    have hr := ih (fun w hw => h w (by simp [hw]))
    simp [zPrefBase_Set, hu, hr]

/-- The scan of `zPrefBase::Set` delegates to the first variable whose key
matches, leaving the variables before and after it untouched. -/
theorem zPrefBase_Set_first_match {T B : Type} (parse : String → T)
    (k val : String) (b : B) (pre post : List (zPrefVariable T B))
    (v : zPrefVariable T B)
    (hpre : ∀ u ∈ pre, u.key ≠ k) (hv : v.key = k) :
    zPrefBase_Set parse (pre ++ v :: post) k val b =
      ((zPrefVariable.FromString parse b v val).1,
       (zPrefVariable.FromString parse b v val).2.1,
       pre ++ (zPrefVariable.FromString parse b v val).2.2 :: post) := by
  revert hpre
  induction pre with
  | nil =>
    intro _
    simp [zPrefBase_Set, hv]
  | cons u pre2 ih =>
    intro hpre
    have hu : ¬ (k = u.key) := fun hh => hpre u (by simp) hh.symm
    have hr := ih (fun w hw => hpre w (by simp [hw]))
    simp [zPrefBase_Set, hu, hr]

/-- C7: the registry's string-keyed `Set`.  First, for a key matching no
registered variable it returns 0, leaving the backend and every
variable's state (cached value and initialized flag) unchanged.  Second,
for a registry `pre ++ v :: post` where no variable of `pre` matches and
`v` does, the scan in insertion order reaches `v` first and delegates to
`v`'s `FromString`, leaving all other variables untouched. -/
theorem registry_set_unknown_key_and_first_match {T B : Type}
    (parse : String → T) (vars pre post : List (zPrefVariable T B))
    (v : zPrefVariable T B) (k val : String) (b : B)
    (hnone : ∀ u ∈ vars, u.key ≠ k)
    (hpre : ∀ u ∈ pre, u.key ≠ k) (hv : v.key = k) :
    zPrefBase_Set parse vars k val b = (0, b, vars) ∧
    zPrefBase_Set parse (pre ++ v :: post) k val b =
      ((zPrefVariable.FromString parse b v val).1,
       (zPrefVariable.FromString parse b v val).2.1,
       pre ++ (zPrefVariable.FromString parse b v val).2.2 :: post) :=
  ⟨zPrefBase_Set_no_match parse k val b vars hnone,
   zPrefBase_Set_first_match parse k val b pre post v hpre hv⟩

/-- C7 witness: a registry holding one variable keyed "a"; `Set` with the
unknown key "x" returns 0 and changes nothing, and with a matching
variable appended the scan delegates to its `FromString`. -/
theorem registry_set_unknown_key_and_first_match_witness :
    (∀ u ∈ [zPrefVariable.make "a" 10 (fun _ d _ => d)
              (fun _ _ _ => (1, ())) 0],
       u.key ≠ "x") ∧
    (zPrefVariable.make "x" 20 (fun _ d _ => d) (fun _ _ _ => (1, ()))
      (0 : Nat) (B := Unit)).key = "x" ∧
    zPrefBase_Set (fun s => s.length)
      [zPrefVariable.make "a" 10 (fun _ d _ => d) (fun _ _ _ => (1, ())) 0]
      "x" "5" () =
      (0, (),
       [zPrefVariable.make "a" 10 (fun _ d _ => d)
          (fun _ _ _ => (1, ())) 0]) ∧
    zPrefBase_Set (fun s => s.length)
      ([zPrefVariable.make "a" 10 (fun _ d _ => d)
          (fun _ _ _ => (1, ())) 0] ++
        zPrefVariable.make "x" 20 (fun _ d _ => d)
          (fun _ _ _ => (1, ())) 0 :: [])
      "x" "5" () =
      ((zPrefVariable.FromString (fun s => s.length) ()
          (zPrefVariable.make "x" 20 (fun _ d _ => d)
            (fun _ _ _ => (1, ())) 0) "5").1,
       (zPrefVariable.FromString (fun s => s.length) ()
          (zPrefVariable.make "x" 20 (fun _ d _ => d)
            (fun _ _ _ => (1, ())) 0) "5").2.1,
       [zPrefVariable.make "a" 10 (fun _ d _ => d)
          (fun _ _ _ => (1, ())) 0] ++
         (zPrefVariable.FromString (fun s => s.length) ()
            (zPrefVariable.make "x" 20 (fun _ d _ => d)
              (fun _ _ _ => (1, ())) 0) "5").2.2 :: []) := by
  have h1 : ∀ u ∈ [zPrefVariable.make "a" 10 (fun _ d _ => d)
      (fun _ _ _ => (1, ())) (0 : Nat) (B := Unit)], u.key ≠ "x" := by
    intro u hu
    rw [List.mem_singleton] at hu
    subst hu
    decide
  exact ⟨h1, rfl,
    (registry_set_unknown_key_and_first_match (fun s => s.length) _ _ []
      (zPrefVariable.make "x" 20 (fun _ d _ => d) (fun _ _ _ => (1, ())) 0)
      "x" "5" () h1 h1 rfl).1,
    (registry_set_unknown_key_and_first_match (fun s => s.length) _ _ []
      (zPrefVariable.make "x" 20 (fun _ d _ => d) (fun _ _ _ => (1, ())) 0)
      "x" "5" () h1 h1 rfl).2⟩

/-- Bytes of the buffer at positions `bufsize` and beyond are never
touched by `toCharArray`: the written region is at most
`min(length, bufsize - 1) + 1 ≤ bufsize` bytes. -/
theorem toCharArray_drop (s buf : List Char) (len : Nat) :
    (toCharArray s buf len).drop len = buf.drop len := by
  unfold toCharArray
  by_cases h : len = 0
  · simp [h]
  · simp only [if_neg h]
    have hns : min s.length (len - 1) ≤ s.length := Nat.min_le_left _ _
    have hnl : min s.length (len - 1) + 1 ≤ len := by
      have := Nat.min_le_right s.length (len - 1)
      omega
    have hA : (s.take (min s.length (len - 1)) ++ [Char.ofNat 0]).length
        = min s.length (len - 1) + 1 := by
      simp [List.length_take, Nat.min_eq_left hns]
    calc ((s.take (min s.length (len - 1)) ++
            Char.ofNat 0 :: buf.drop (min s.length (len - 1) + 1)).drop len)
        = (((s.take (min s.length (len - 1)) ++ [Char.ofNat 0]) ++
            buf.drop (min s.length (len - 1) + 1)).drop
            ((min s.length (len - 1) + 1) +
              (len - (min s.length (len - 1) + 1)))) := by
          rw [List.append_assoc]
          congr 1
          omega
      _ = ((buf.drop (min s.length (len - 1) + 1)).drop
            (len - (min s.length (len - 1) + 1))) := by
          rw [← List.drop_drop, List.drop_left' hA]
      _ = buf.drop len := by
          rw [List.drop_drop]
          congr 1
          omega

/-- The scan of `zPrefBase::GetString(key, buf, len)` returns false and
leaves buffer, backend and variables untouched when no key matches. -/
theorem zPrefBase_GetString_no_match {T B : Type} (render : T → List Char)
    (k : String) (b : B) (buf : List Char) (len : Nat)
    (vars : List (zPrefVariable T B)) (h : ∀ u ∈ vars, u.key ≠ k) :
    zPrefBase_GetString render vars k b buf len = (false, buf, vars) := by
  revert h
  induction vars with
  | nil => intro _; rfl
  | cons u rest ih =>
    intro h
    have hu : ¬ (k = u.key) := fun hh => h u (by simp) hh.symm
    have hr := ih (fun w hw => h w (by simp [hw]))
    simp [zPrefBase_GetString, hu, hr]

/-- The scan of `zPrefBase::GetString(key, buf, len)` delegates to the
first variable whose key matches. -/
theorem zPrefBase_GetString_first_match {T B : Type}
    (render : T → List Char) (k : String) (b : B) (buf : List Char)
    (len : Nat) (pre post : List (zPrefVariable T B))
    (v : zPrefVariable T B)
    (hpre : ∀ u ∈ pre, u.key ≠ k) (hv : v.key = k) :
    zPrefBase_GetString render (pre ++ v :: post) k b buf len =
      ((zPrefVariable.GetStringBuf render b v buf len).1,
       (zPrefVariable.GetStringBuf render b v buf len).2.1,
       pre ++ (zPrefVariable.GetStringBuf render b v buf len).2.2 :: post)
    := by
  revert hpre
  induction pre with
  | nil =>
    intro _
    simp [zPrefBase_GetString, hv]
  | cons u pre2 ih =>
    intro hpre
    have hu : ¬ (k = u.key) := fun hh => hpre u (by simp) hh.symm
    have hr := ih (fun w hw => hpre w (by simp [hw]))
    simp [zPrefBase_GetString, hu, hr]

/-- C8: the bounded-buffer accessor.  (1) When the rendered text of the
variable's (initialized) current value is longer than `len`, the
variable-level `GetString(buf, len)` returns false and hands back the
buffer unmodified.  (2) In every case the buffer's bytes at positions
`len` and beyond are untouched — nothing is written past `len` bytes.
(3) The registry-level `GetString(key, buf, len)` returns false with the
buffer unmodified when no variable matches, and (4) delegates to the
first matching variable, so (1) and (2) carry over to it. -/
theorem getstring_bounded_buffer {T B : Type} (render : T → List Char)
    (v : zPrefVariable T B) (b : B) (buf : List Char) (len : Nat)
    (vars pre post : List (zPrefVariable T B)) (k : String)
    (hnone : ∀ u ∈ vars, u.key ≠ k)
    (hpre : ∀ u ∈ pre, u.key ≠ k) (hv : v.key = k) :
    ((render (zPrefVariable.Get b v).1).length > len →
      zPrefVariable.GetStringBuf render b v buf len =
        (false, buf, (zPrefVariable.Get b v).2.1)) ∧
    ((zPrefVariable.GetStringBuf render b v buf len).2.1).drop len =
      buf.drop len ∧
    zPrefBase_GetString render vars k b buf len = (false, buf, vars) ∧
    zPrefBase_GetString render (pre ++ v :: post) k b buf len =
      ((zPrefVariable.GetStringBuf render b v buf len).1,
       (zPrefVariable.GetStringBuf render b v buf len).2.1,
       pre ++ (zPrefVariable.GetStringBuf render b v buf len).2.2 :: post)
    := by
  refine ⟨?_, ?_, zPrefBase_GetString_no_match render k b buf len vars hnone,
    zPrefBase_GetString_first_match render k b buf len pre post v hpre hv⟩
  · intro hlong
    simp [zPrefVariable.GetStringBuf, hlong]
  · by_cases hlong : (render (zPrefVariable.Get b v).1).length > len
    · simp [zPrefVariable.GetStringBuf, hlong]
    · simp [zPrefVariable.GetStringBuf, hlong, toCharArray_drop]

/-- C8 witness: an initialized variable rendering to the 3-character text
"123" against a 2-byte capacity — `GetString` returns false with the
4-byte buffer untouched; the past-capacity invariant and the registry
no-match and first-match cases at the same concrete inputs. -/
theorem getstring_bounded_buffer_witness :
    (∀ u ∈ [zPrefVariable.make "a" 10 (fun _ d _ => d)
              (fun _ _ _ => (1, ())) 0],
       u.key ≠ "x") ∧
    ({ key := "x", defaultVal := 0, getter := fun _ d _ => d,
       setter := fun _ _ _ => (1, ()), current := 5, initialized := true :
       zPrefVariable Nat Unit }).key = "x" ∧
    ((fun _ : Nat => ['1', '2', '3'])
      (zPrefVariable.Get ()
        ({ key := "x", defaultVal := 0, getter := fun _ d _ => d,
           setter := fun _ _ _ => (1, ()), current := 5,
           initialized := true : zPrefVariable Nat Unit })).1).length > 2 ∧
    zPrefVariable.GetStringBuf (fun _ : Nat => ['1', '2', '3']) ()
      { key := "x", defaultVal := 0, getter := fun _ d _ => d,
        setter := fun _ _ _ => (1, ()), current := 5, initialized := true }
      ['z', 'z', 'z', 'z'] 2 =
      (false, ['z', 'z', 'z', 'z'],
       (zPrefVariable.Get ()
         ({ key := "x", defaultVal := 0, getter := fun _ d _ => d,
            setter := fun _ _ _ => (1, ()), current := 5,
            initialized := true : zPrefVariable Nat Unit })).2.1) ∧
    ((zPrefVariable.GetStringBuf (fun _ : Nat => ['1', '2', '3']) ()
        { key := "x", defaultVal := 0, getter := fun _ d _ => d,
          setter := fun _ _ _ => (1, ()), current := 5,
          initialized := true }
        ['z', 'z', 'z', 'z'] 2).2.1).drop 2 =
      (['z', 'z', 'z', 'z'] : List Char).drop 2 ∧
    zPrefBase_GetString (fun _ : Nat => ['1', '2', '3'])
      [zPrefVariable.make "a" 10 (fun _ d _ => d) (fun _ _ _ => (1, ())) 0]
      "x" () ['z', 'z', 'z', 'z'] 2 =
      (false, ['z', 'z', 'z', 'z'],
       [zPrefVariable.make "a" 10 (fun _ d _ => d)
          (fun _ _ _ => (1, ())) 0]) := by
  have h1 : ∀ u ∈ [zPrefVariable.make "a" 10 (fun _ d _ => d)
      (fun _ _ _ => (1, ())) (0 : Nat) (B := Unit)], u.key ≠ "x" := by
    intro u hu
    rw [List.mem_singleton] at hu
    subst hu
    decide
  refine ⟨h1, rfl, by decide, ?_, ?_, ?_⟩
  · exact (getstring_bounded_buffer (fun _ : Nat => ['1', '2', '3'])
      { key := "x", defaultVal := 0, getter := fun _ d _ => d,
        setter := fun _ _ _ => (1, ()), current := 5, initialized := true }
      () ['z', 'z', 'z', 'z'] 2 _ _ [] "x" h1 h1 rfl).1 (by decide)
  · exact (getstring_bounded_buffer (fun _ : Nat => ['1', '2', '3'])
      { key := "x", defaultVal := 0, getter := fun _ d _ => d,
        setter := fun _ _ _ => (1, ()), current := 5, initialized := true }
      () ['z', 'z', 'z', 'z'] 2 _ _ [] "x" h1 h1 rfl).2.1
  · exact (getstring_bounded_buffer (fun _ : Nat => ['1', '2', '3'])
      { key := "x", defaultVal := 0, getter := fun _ d _ => d,
        setter := fun _ _ _ => (1, ()), current := 5, initialized := true }
      () ['z', 'z', 'z', 'z'] 2
      [zPrefVariable.make "a" 10 (fun _ d _ => d) (fun _ _ _ => (1, ())) 0]
      _ [] "x" h1 h1 rfl).2.2.1
